import Mathlib

/-!
Verification of the wind-energy-ml backend (`src/main/backend/app.py` and
`src/main/backend/app-with-drive.py`).

The JSON observation submitted to the `/api/predict` endpoints is modelled as
an association list from field names to real numbers; the pandas one-row
DataFrame built from it is the same association list, with column assignment
`df[c] = v` modelled as update-or-append (pandas replaces an existing column
in place and appends a new one at the end).  The pre-trained model and scaler
are opaque injected functions (`model.predict` on a 1-row matrix is a function
from the row to the scalar `predict(..)[0]`; `scaler.transform` a function on
rows), each optionally present, matching the module-level globals of the app.
Python floats are idealised as real numbers.
-/

namespace WindML

/-- A JSON observation / one-row DataFrame: field name to numeric value. -/
abbrev Data := List (String × ℝ)

/-- Column lookup: first binding wins (dict keys are unique in practice). -/
def lookupD (d : Data) (k : String) : Option ℝ :=
  match d with
  | [] => none
  | (k', v) :: rest => if k' = k then some v else lookupD rest k

/-- `df[k]` after validation has ensured presence; default never observed. -/
noncomputable def getF (d : Data) (k : String) : ℝ :=
  (lookupD d k).getD 0

/-- Overwriting one binding of an existing column `k` with the value `v`. -/
def replaceVal (k : String) (v : ℝ) (p : String × ℝ) : String × ℝ :=
  if p.1 = k then (k, v) else p

/-- Pandas column assignment `df[k] = v`: replace the column if it exists,
otherwise append it at the end. -/
def setCol (d : Data) (k : String) (v : ℝ) : Data :=
  if (lookupD d k).isSome then
    d.map (replaceVal k v)
  else
    d ++ [(k, v)]

/-- `required_fields` from `app.py` (`predict`, lines 115-119). -/
def required_fields : List String :=
  ["Location", "Temp_2m", "RelHum_2m", "DP_2m",
   "WS_10m", "WS_100m", "WD_10m", "WD_100m", "WG_10m",
   "hour", "day", "month", "dayofweek", "is_weekend"]

/-- `missing_fields = [f for f in required_fields if f not in data]`
(`app.py` line 121). -/
def missing_fields (d : Data) : List String :=
  required_fields.filter (fun f => (lookupD d f).isNone)

/-- The 11 derived column names, in the order the code assigns them. -/
def derived_names : List String :=
  ["WD_10m_sin", "WD_10m_cos", "WD_100m_sin", "WD_100m_cos",
   "WS_10m_sq", "WS_10m_cu", "WS_100m_sq", "WS_100m_cu",
   "temp_humidity", "temp_dew_diff", "wind_shear"]

/-- `feature_list` from `app.py` (lines 148-155). -/
def feature_list : List String :=
  ["Location", "Temp_2m", "RelHum_2m", "DP_2m",
   "WS_10m", "WS_100m", "WD_10m", "WD_100m", "WG_10m",
   "hour", "day", "month", "dayofweek", "is_weekend",
   "WD_10m_sin", "WD_10m_cos", "WD_100m_sin", "WD_100m_cos",
   "WS_10m_sq", "WS_10m_cu", "WS_100m_sq", "WS_100m_cu",
   "temp_humidity", "temp_dew_diff", "wind_shear"]

/-- `np.deg2rad`. -/
noncomputable def deg2rad (x : ℝ) : ℝ := x * (Real.pi / 180)

/-- The eleven feature-engineering assignments of `app.py` lines 131-145,
given the values read from the seven raw source columns. -/
noncomputable def addFeatures (d : Data)
    (wd10 wd100 ws10 ws100 t rh dp : ℝ) : Data :=
  let d1 := setCol d "WD_10m_sin" (Real.sin (deg2rad wd10))
  let d2 := setCol d1 "WD_10m_cos" (Real.cos (deg2rad wd10))
  let d3 := setCol d2 "WD_100m_sin" (Real.sin (deg2rad wd100))
  let d4 := setCol d3 "WD_100m_cos" (Real.cos (deg2rad wd100))
  let d5 := setCol d4 "WS_10m_sq" (ws10 ^ 2)
  let d6 := setCol d5 "WS_10m_cu" (ws10 ^ 3)
  let d7 := setCol d6 "WS_100m_sq" (ws100 ^ 2)
  let d8 := setCol d7 "WS_100m_cu" (ws100 ^ 3)
  let d9 := setCol d8 "temp_humidity" (t * rh)
  let d10 := setCol d9 "temp_dew_diff" (t - dp)
  setCol d10 "wind_shear" (ws100 - ws10)

/-- Feature engineering (`app.py` lines 131-145): reads the seven raw source
columns (a missing column raises `KeyError`, hence `none`) and assigns the
eleven derived columns. -/
noncomputable def engineer (d : Data) : Option Data :=
  (lookupD d "WD_10m").bind fun wd10 =>
  (lookupD d "WD_100m").bind fun wd100 =>
  (lookupD d "WS_10m").bind fun ws10 =>
  (lookupD d "WS_100m").bind fun ws100 =>
  (lookupD d "Temp_2m").bind fun t =>
  (lookupD d "RelHum_2m").bind fun rh =>
  (lookupD d "DP_2m").bind fun dp =>
  some (addFeatures d wd10 wd100 ws10 ws100 t rh dp)

/-- `df[cols]`: project the row onto the named columns, in order; a missing
column raises `KeyError`, hence `none`. -/
def selectCols (df : Data) : List String → Option (List ℝ)
  | [] => some []
  | c :: cs =>
    (lookupD df c).bind fun v =>
    (selectCols df cs).bind fun vs =>
    some (v :: vs)

/-- `X = input_df[feature_list]` after feature engineering: the single row of
the 1x25 matrix handed to the scaler/model (`app.py` lines 128-157). -/
noncomputable def featureRow (d : Data) : Option (List ℝ) :=
  match engineer d with
  | some df => selectCols df feature_list
  | none => none

/-- `np.clip(x, 0.0, 1.0)` (`app.py` line 174). -/
noncomputable def clip01 (x : ℝ) : ℝ := min (max x 0) 1

/-- The demo-mode heuristic `min(0.9, (wind_speed / 15) ** 1.5)`
(`app.py` line 171).  The Python `**` on a nonnegative float base is real
`rpow`; no claim exercises a negative base. -/
noncomputable def demoPrediction (ws : ℝ) : ℝ :=
  min 0.9 ((ws / 15) ^ (1.5 : ℝ))

/-- Outcome of one call to a predict endpoint, tagged with the HTTP status
the route returns: `success` is 200, `noData` and `clientError` are 400,
`unavailable` is 503, `serverError` is the catch-all 500. -/
inductive Resp where
  | success (prediction : ℝ)
  | noData
  | clientError (missing : List String)
  | unavailable
  | serverError
deriving Inhabited

/-- An opaque loaded model: `row ↦ model.predict([row])[0]`. -/
abbrev Model := List ℝ → ℝ

/-- An opaque fitted scaler: `row ↦ scaler.transform([row])[0]`. -/
abbrev Scaler := List ℝ → List ℝ

/-- The raw output value the predict route produces for a built row
(`app.py` lines 159-171): the loaded model applied to the scaled row (or
to the row passed through unchanged when the scaler is absent), or, with
no model, the demo heuristic on the observation's `WS_10m`. -/
noncomputable def rawOutput (model : Option Model) (scaler : Option Scaler)
    (d : Data) (row : List ℝ) : ℝ :=
  match model with
  | some m =>
    m (match scaler with
       | some s => s row
       | none => row)
  | none => demoPrediction (getF d "WS_10m")

namespace App

/-- The `/api/predict` route of `app.py` (`predict`, lines 107-190), as a
function of the global `model` and `scaler` handles and the request body. -/
noncomputable def predict (model : Option Model) (scaler : Option Scaler)
    (d : Data) : Resp :=
  if d.isEmpty then .noData
  else if missing_fields d = [] then
    match featureRow d with
    | none => .serverError
    | some row =>
      let scaled := match scaler with
        | some s => s row
        | none => row
      let raw := match model with
        | some m => m scaled
        | none => demoPrediction (getF d "WS_10m")
      .success (clip01 raw)
  else .clientError (missing_fields d)

/-- One iteration of the `/api/predict-batch` loop of `app.py`
(`predict_batch`, lines 230-271): no missing-field validation; a missing
column raises `KeyError`, aborting the whole batch (`none`). -/
noncomputable def batchItem (model : Option Model) (scaler : Option Scaler)
    (d : Data) : Option ℝ :=
  match featureRow d with
  | none => none
  | some row =>
    let scaled := match scaler with
      | some s => s row
      | none => row
    match model with
    | some m => some (clip01 (m scaled))
    | none =>
      match lookupD d "WS_10m" with
      | some ws => some (clip01 (demoPrediction ws))
      | none => none

/-- The loop of `predict_batch`: results accumulate in input order and any
exception abandons the whole batch. -/
noncomputable def batchLoop (model : Option Model) (scaler : Option Scaler) :
    List Data → Option (List ℝ)
  | [] => some []
  | d :: rest =>
    match batchItem model scaler d with
    | none => none
    | some p =>
      match batchLoop model scaler rest with
      | none => none
      | some ps => some (p :: ps)

/-- The `/api/predict-batch` route of `app.py` (lines 216-283): either all
predictions (200) or, on the first exception, a 500 for the whole batch. -/
noncomputable def predict_batch (model : Option Model)
    (scaler : Option Scaler) (items : List Data) : Except Unit (List ℝ) :=
  match batchLoop model scaler items with
  | some ps => .ok ps
  | none => .error ()

/-- The body of the `/api/health` response of `app.py` (lines 69-77), minus
the wall-clock timestamp.  It reads only the `model` global. -/
def health_check (model : Option Model) (_scaler : Option Scaler) :
    String × Bool × String :=
  ("healthy", model.isSome, "1.0.0")

/-- `load_model` of `app.py` (lines 42-59): the outcome of each
`joblib.load`, distinguishing `FileNotFoundError` (caught) from any other
exception (propagates). -/
inductive LoadOutcome (α : Type) where
  | ok (value : α)
  | fileNotFound
  | otherError

/-- `load_model` (`app.py` lines 42-59): loads the model then the scaler;
`FileNotFoundError` anywhere resets both globals to `None`; any other
exception propagates out of the initializer (`none` result), leaving no
normally-initialized state. -/
def load_model (lm : LoadOutcome Model) (ls : LoadOutcome Scaler) :
    Option (Option Model × Option Scaler) :=
  match lm with
  | .fileNotFound => some (none, none)
  | .otherError => none
  | .ok m =>
    match ls with
    | .fileNotFound => some (none, none)
    | .otherError => none
    | .ok s => some (some m, some s)

end App

namespace Drive

/-- The `/api/predict` route of `app-with-drive.py` (`predict`, lines
68-164): a 503 when either handle is missing, then the same validation,
feature engineering and clamping as `app.py`, with no demo fallback. -/
noncomputable def predict (model : Option Model) (scaler : Option Scaler)
    (d : Data) : Resp :=
  match model, scaler with
  | some m, some s =>
    if d.isEmpty then .noData
    else if missing_fields d = [] then
      match featureRow d with
      | none => .serverError
      | some row => .success (clip01 (m (s row)))
    else .clientError (missing_fields d)
  | _, _ => .unavailable

end Drive

/-- The body of the constant `/api/model-info` response of `app.py` (lines
196-210), reduced to its two string fields; like `health_check` it carries
no information about the scaler. -/
def model_info (_model : Option Model) (_scaler : Option Scaler) :
    String × String :=
  ("Wind Power Prediction - Random Forest", "1.0.0")

/-- A complete observation: all 14 required fields. -/
noncomputable def dFull : Data :=
  [("Location", 1), ("Temp_2m", 20), ("RelHum_2m", 50), ("DP_2m", 10),
   ("WS_10m", 2), ("WS_100m", 5), ("WD_10m", 90), ("WD_100m", 0),
   ("WG_10m", 3), ("hour", 12), ("day", 15), ("month", 6),
   ("dayofweek", 2), ("is_weekend", 0)]

/-- A complete observation with `WS_10m = 15`, for which the demo heuristic
takes the clean value `min(0.9, 1) = 0.9`. -/
noncomputable def dDemo : Data :=
  [("Location", 1), ("Temp_2m", 20), ("RelHum_2m", 50), ("DP_2m", 10),
   ("WS_10m", 15), ("WS_100m", 5), ("WD_10m", 90), ("WD_100m", 0),
   ("WG_10m", 3), ("hour", 12), ("day", 15), ("month", 6),
   ("dayofweek", 2), ("is_weekend", 0)]

/-- An observation missing exactly `RelHum_2m` and `hour`. -/
noncomputable def dMiss : Data :=
  [("Location", 1), ("Temp_2m", 20), ("DP_2m", 10),
   ("WS_10m", 2), ("WS_100m", 5), ("WD_10m", 90), ("WD_100m", 0),
   ("WG_10m", 3), ("day", 15), ("month", 6),
   ("dayofweek", 2), ("is_weekend", 0)]

/-- The concrete observation of the spec's derived-value example, completed
with the `WD_100m` reading the feature engineering also touches. -/
noncomputable def dExample : Data :=
  [("WD_10m", 90), ("WD_100m", 0), ("WS_10m", 2), ("WS_100m", 5),
   ("Temp_2m", 20), ("RelHum_2m", 50), ("DP_2m", 10)]

/-! Basic lemmas about column lookup and assignment. -/

theorem lookupD_nil (k : String) : lookupD [] k = none := rfl

theorem lookupD_cons (a : String) (b : ℝ) (l : Data) (k : String) :
    lookupD ((a, b) :: l) k = if a = k then some b else lookupD l k := rfl

theorem replaceVal_pair (k : String) (v : ℝ) (a : String) (b : ℝ) :
    replaceVal k v (a, b) = if a = k then (k, v) else (a, b) := rfl

theorem lookupD_append (d₁ d₂ : Data) (k : String) :
    lookupD (d₁ ++ d₂) k =
      match lookupD d₁ k with
      | some v => some v
      | none => lookupD d₂ k := by
  induction d₁ with
  | nil => rw [List.nil_append, lookupD_nil]
  | cons p rest ih =>
    obtain ⟨k', v'⟩ := p
    rw [List.cons_append, lookupD_cons, lookupD_cons]
    by_cases h : k' = k
    · rw [if_pos h, if_pos h]
    · rw [if_neg h, if_neg h, ih]

theorem lookupD_map_self (d : Data) (k : String) (v : ℝ) :
    lookupD (d.map (replaceVal k v)) k =
      (lookupD d k).map (fun _ => v) := by
  induction d with
  | nil => rfl
  | cons p rest ih =>
    obtain ⟨k', v'⟩ := p
    rw [List.map_cons, replaceVal_pair, lookupD_cons]
    by_cases h : k' = k
    · rw [if_pos h, lookupD_cons, if_pos rfl, if_pos h]
      rfl
    · rw [if_neg h, lookupD_cons, if_neg h, if_neg h, ih]

theorem lookupD_map_ne (d : Data) (k k' : String) (v : ℝ) (h : k' ≠ k) :
    lookupD (d.map (replaceVal k v)) k' = lookupD d k' := by
  induction d with
  | nil => rfl
  | cons p rest ih =>
    obtain ⟨k₀, v₀⟩ := p
    rw [List.map_cons, replaceVal_pair, lookupD_cons]
    by_cases h0 : k₀ = k
    · rw [if_pos h0, lookupD_cons, if_neg (fun hk => h hk.symm),
        if_neg (fun hk => h (h0 ▸ hk).symm), ih]
    · rw [if_neg h0, lookupD_cons, ih]

theorem lookupD_setCol_self (d : Data) (k : String) (v : ℝ) :
    lookupD (setCol d k v) k = some v := by
  unfold setCol
  split
  · rename_i h
    rw [lookupD_map_self]
    cases hc : lookupD d k with
    | none => rw [hc] at h; simp at h
    | some w => simp
  · rename_i h
    rw [lookupD_append]
    rw [Option.not_isSome_iff_eq_none] at h
    rw [h, lookupD_cons, if_pos rfl]

theorem lookupD_setCol_ne (d : Data) (k k' : String) (v : ℝ) (h : k' ≠ k) :
    lookupD (setCol d k v) k' = lookupD d k' := by
  unfold setCol
  split
  · exact lookupD_map_ne d k k' v h
  · rw [lookupD_append]
    cases hc : lookupD d k' with
    | none => rw [lookupD_cons, if_neg (fun hk => h hk.symm), lookupD_nil]
    | some w => rfl

theorem isEmpty_false_of_lookup {d : Data} {f : String} {v : ℝ}
    (h : lookupD d f = some v) : d.isEmpty = false := by
  cases d with
  | nil => rw [lookupD_nil] at h; exact absurd h (by simp)
  | cons p rest => rfl

/-! Lookups on the engineered DataFrame. -/

theorem lookupD_addFeatures_not_derived (d : Data)
    (wd10 wd100 ws10 ws100 t rh dp : ℝ) (k : String)
    (hk : ¬ k ∈ derived_names) :
    lookupD (addFeatures d wd10 wd100 ws10 ws100 t rh dp) k =
      lookupD d k := by
  simp only [derived_names, List.mem_cons, List.not_mem_nil, or_false,
    not_or] at hk
  obtain ⟨h1, h2, h3, h4, h5, h6, h7, h8, h9, h10, h11⟩ := hk
  simp only [addFeatures]
  rw [lookupD_setCol_ne _ _ _ _ h11, lookupD_setCol_ne _ _ _ _ h10,
    lookupD_setCol_ne _ _ _ _ h9, lookupD_setCol_ne _ _ _ _ h8,
    lookupD_setCol_ne _ _ _ _ h7, lookupD_setCol_ne _ _ _ _ h6,
    lookupD_setCol_ne _ _ _ _ h5, lookupD_setCol_ne _ _ _ _ h4,
    lookupD_setCol_ne _ _ _ _ h3, lookupD_setCol_ne _ _ _ _ h2,
    lookupD_setCol_ne _ _ _ _ h1]

theorem lookupD_addFeatures_wd10_sin (d : Data)
    (wd10 wd100 ws10 ws100 t rh dp : ℝ) :
    lookupD (addFeatures d wd10 wd100 ws10 ws100 t rh dp) "WD_10m_sin" =
      some (Real.sin (deg2rad wd10)) := by
  simp only [addFeatures]
  rw [lookupD_setCol_ne _ _ _ _ (by decide), lookupD_setCol_ne _ _ _ _ (by decide),
    lookupD_setCol_ne _ _ _ _ (by decide), lookupD_setCol_ne _ _ _ _ (by decide),
    lookupD_setCol_ne _ _ _ _ (by decide), lookupD_setCol_ne _ _ _ _ (by decide),
    lookupD_setCol_ne _ _ _ _ (by decide), lookupD_setCol_ne _ _ _ _ (by decide),
    lookupD_setCol_ne _ _ _ _ (by decide), lookupD_setCol_ne _ _ _ _ (by decide),
    lookupD_setCol_self]

theorem lookupD_addFeatures_wd10_cos (d : Data)
    (wd10 wd100 ws10 ws100 t rh dp : ℝ) :
    lookupD (addFeatures d wd10 wd100 ws10 ws100 t rh dp) "WD_10m_cos" =
      some (Real.cos (deg2rad wd10)) := by
  simp only [addFeatures]
  rw [lookupD_setCol_ne _ _ _ _ (by decide), lookupD_setCol_ne _ _ _ _ (by decide),
    lookupD_setCol_ne _ _ _ _ (by decide), lookupD_setCol_ne _ _ _ _ (by decide),
    lookupD_setCol_ne _ _ _ _ (by decide), lookupD_setCol_ne _ _ _ _ (by decide),
    lookupD_setCol_ne _ _ _ _ (by decide), lookupD_setCol_ne _ _ _ _ (by decide),
    lookupD_setCol_ne _ _ _ _ (by decide), lookupD_setCol_self]

theorem lookupD_addFeatures_wd100_sin (d : Data)
    (wd10 wd100 ws10 ws100 t rh dp : ℝ) :
    lookupD (addFeatures d wd10 wd100 ws10 ws100 t rh dp) "WD_100m_sin" =
      some (Real.sin (deg2rad wd100)) := by
  simp only [addFeatures]
  rw [lookupD_setCol_ne _ _ _ _ (by decide), lookupD_setCol_ne _ _ _ _ (by decide),
    lookupD_setCol_ne _ _ _ _ (by decide), lookupD_setCol_ne _ _ _ _ (by decide),
    lookupD_setCol_ne _ _ _ _ (by decide), lookupD_setCol_ne _ _ _ _ (by decide),
    lookupD_setCol_ne _ _ _ _ (by decide), lookupD_setCol_ne _ _ _ _ (by decide),
    lookupD_setCol_self]

theorem lookupD_addFeatures_wd100_cos (d : Data)
    (wd10 wd100 ws10 ws100 t rh dp : ℝ) :
    lookupD (addFeatures d wd10 wd100 ws10 ws100 t rh dp) "WD_100m_cos" =
      some (Real.cos (deg2rad wd100)) := by
  simp only [addFeatures]
  rw [lookupD_setCol_ne _ _ _ _ (by decide), lookupD_setCol_ne _ _ _ _ (by decide),
    lookupD_setCol_ne _ _ _ _ (by decide), lookupD_setCol_ne _ _ _ _ (by decide),
    lookupD_setCol_ne _ _ _ _ (by decide), lookupD_setCol_ne _ _ _ _ (by decide),
    lookupD_setCol_ne _ _ _ _ (by decide), lookupD_setCol_self]

theorem lookupD_addFeatures_ws10_sq (d : Data)
    (wd10 wd100 ws10 ws100 t rh dp : ℝ) :
    lookupD (addFeatures d wd10 wd100 ws10 ws100 t rh dp) "WS_10m_sq" =
      some (ws10 ^ 2) := by
  simp only [addFeatures]
  rw [lookupD_setCol_ne _ _ _ _ (by decide), lookupD_setCol_ne _ _ _ _ (by decide),
    lookupD_setCol_ne _ _ _ _ (by decide), lookupD_setCol_ne _ _ _ _ (by decide),
    lookupD_setCol_ne _ _ _ _ (by decide), lookupD_setCol_ne _ _ _ _ (by decide),
    lookupD_setCol_self]

theorem lookupD_addFeatures_ws10_cu (d : Data)
    (wd10 wd100 ws10 ws100 t rh dp : ℝ) :
    lookupD (addFeatures d wd10 wd100 ws10 ws100 t rh dp) "WS_10m_cu" =
      some (ws10 ^ 3) := by
  simp only [addFeatures]
  rw [lookupD_setCol_ne _ _ _ _ (by decide), lookupD_setCol_ne _ _ _ _ (by decide),
    lookupD_setCol_ne _ _ _ _ (by decide), lookupD_setCol_ne _ _ _ _ (by decide),
    lookupD_setCol_ne _ _ _ _ (by decide), lookupD_setCol_self]

theorem lookupD_addFeatures_ws100_sq (d : Data)
    (wd10 wd100 ws10 ws100 t rh dp : ℝ) :
    lookupD (addFeatures d wd10 wd100 ws10 ws100 t rh dp) "WS_100m_sq" =
      some (ws100 ^ 2) := by
  simp only [addFeatures]
  rw [lookupD_setCol_ne _ _ _ _ (by decide), lookupD_setCol_ne _ _ _ _ (by decide),
    lookupD_setCol_ne _ _ _ _ (by decide), lookupD_setCol_ne _ _ _ _ (by decide),
    lookupD_setCol_self]

theorem lookupD_addFeatures_ws100_cu (d : Data)
    (wd10 wd100 ws10 ws100 t rh dp : ℝ) :
    lookupD (addFeatures d wd10 wd100 ws10 ws100 t rh dp) "WS_100m_cu" =
      some (ws100 ^ 3) := by
  simp only [addFeatures]
  rw [lookupD_setCol_ne _ _ _ _ (by decide), lookupD_setCol_ne _ _ _ _ (by decide),
    lookupD_setCol_ne _ _ _ _ (by decide), lookupD_setCol_self]

theorem lookupD_addFeatures_temp_humidity (d : Data)
    (wd10 wd100 ws10 ws100 t rh dp : ℝ) :
    lookupD (addFeatures d wd10 wd100 ws10 ws100 t rh dp) "temp_humidity" =
      some (t * rh) := by
  simp only [addFeatures]
  rw [lookupD_setCol_ne _ _ _ _ (by decide), lookupD_setCol_ne _ _ _ _ (by decide),
    lookupD_setCol_self]

theorem lookupD_addFeatures_temp_dew_diff (d : Data)
    (wd10 wd100 ws10 ws100 t rh dp : ℝ) :
    lookupD (addFeatures d wd10 wd100 ws10 ws100 t rh dp) "temp_dew_diff" =
      some (t - dp) := by
  simp only [addFeatures]
  rw [lookupD_setCol_ne _ _ _ _ (by decide), lookupD_setCol_self]

theorem lookupD_addFeatures_wind_shear (d : Data)
    (wd10 wd100 ws10 ws100 t rh dp : ℝ) :
    lookupD (addFeatures d wd10 wd100 ws10 ws100 t rh dp) "wind_shear" =
      some (ws100 - ws10) := by
  simp only [addFeatures]
  rw [lookupD_setCol_self]

/-! Validation lemmas. -/

theorem present_of_missing_nil {d : Data} (h : missing_fields d = [])
    (f : String) (hf : f ∈ required_fields) : ∃ v, lookupD d f = some v := by
  unfold missing_fields at h
  rw [List.filter_eq_nil_iff] at h
  have hnn := h f hf
  cases hc : lookupD d f with
  | none => rw [hc] at hnn; exact absurd rfl hnn
  | some v => exact ⟨v, rfl⟩

theorem missing_nil_of_present {d : Data}
    (h : ∀ f ∈ required_fields, (lookupD d f).isSome) :
    missing_fields d = [] := by
  unfold missing_fields
  rw [List.filter_eq_nil_iff]
  intro f hf
  have hs := h f hf
  cases hc : lookupD d f with
  | none => rw [hc] at hs; exact absurd hs (by simp)
  | some v => simp

theorem required_not_derived :
    ∀ f ∈ required_fields, ¬ f ∈ derived_names := by decide

theorem required_sub_features :
    ∀ f ∈ required_fields, f ∈ feature_list := by decide

theorem selectCols_isSome {df : Data} {cols : List String} {row : List ℝ}
    (h : selectCols df cols = some row) :
    ∀ c ∈ cols, (lookupD df c).isSome := by
  induction cols generalizing row with
  | nil => intro c hc; exact absurd hc (List.not_mem_nil c)
  | cons c cs ih =>
    simp only [selectCols, Option.bind_eq_some] at h
    obtain ⟨v, hv, vs, hvs, _⟩ := h
    intro c' hc'
    rcases List.mem_cons.mp hc' with h' | h'
    · subst h'; rw [hv]; rfl
    · exact ih hvs c' h'

theorem engineer_some {d df : Data} (h : engineer d = some df) :
    ∃ wd10 wd100 ws10 ws100 t rh dp,
      lookupD d "WD_10m" = some wd10 ∧
      lookupD d "WD_100m" = some wd100 ∧
      lookupD d "WS_10m" = some ws10 ∧
      lookupD d "WS_100m" = some ws100 ∧
      lookupD d "Temp_2m" = some t ∧
      lookupD d "RelHum_2m" = some rh ∧
      lookupD d "DP_2m" = some dp ∧
      df = addFeatures d wd10 wd100 ws10 ws100 t rh dp := by
  simp only [engineer, Option.bind_eq_some, Option.some.injEq] at h
  obtain ⟨wd10, h1, wd100, h2, ws10, h3, ws100, h4, t, h5, rh, h6, dp, h7,
    hdf⟩ := h
  exact ⟨wd10, wd100, ws10, ws100, t, rh, dp, h1, h2, h3, h4, h5, h6, h7,
    hdf.symm⟩

/-- Any `featureRow` success certifies that all 14 required raw fields were
present and the observation was nonempty. -/
theorem featureRow_some_inv {d : Data} {row : List ℝ}
    (h : featureRow d = some row) :
    missing_fields d = [] ∧ d.isEmpty = false := by
  unfold featureRow at h
  cases he : engineer d with
  | none => rw [he] at h; exact Option.noConfusion h
  | some df =>
    rw [he] at h
    obtain ⟨wd10, wd100, ws10, ws100, t, rh, dp, h1, h2, h3, h4, h5, h6, h7,
      hdf⟩ := engineer_some he
    have hall := selectCols_isSome h
    refine ⟨missing_nil_of_present ?_, isEmpty_false_of_lookup h1⟩
    intro f hf
    have hfeat := hall f (required_sub_features f hf)
    rw [hdf,
      lookupD_addFeatures_not_derived d wd10 wd100 ws10 ws100 t rh dp f
        (required_not_derived f hf)] at hfeat
    exact hfeat

/-- The workhorse: on an observation with all 14 required fields present,
the predict path builds exactly this 25-entry row, in this order. -/
theorem featureRow_eq (d : Data)
    (loc t rh dp ws10 ws100 wd10 wd100 wg hr dy mo dow wk : ℝ)
    (hLoc : lookupD d "Location" = some loc)
    (hT : lookupD d "Temp_2m" = some t)
    (hRH : lookupD d "RelHum_2m" = some rh)
    (hDP : lookupD d "DP_2m" = some dp)
    (hWS10 : lookupD d "WS_10m" = some ws10)
    (hWS100 : lookupD d "WS_100m" = some ws100)
    (hWD10 : lookupD d "WD_10m" = some wd10)
    (hWD100 : lookupD d "WD_100m" = some wd100)
    (hWG : lookupD d "WG_10m" = some wg)
    (hHr : lookupD d "hour" = some hr)
    (hDy : lookupD d "day" = some dy)
    (hMo : lookupD d "month" = some mo)
    (hDow : lookupD d "dayofweek" = some dow)
    (hWk : lookupD d "is_weekend" = some wk) :
    featureRow d = some
      [loc, t, rh, dp, ws10, ws100, wd10, wd100, wg, hr, dy, mo, dow, wk,
       Real.sin (deg2rad wd10), Real.cos (deg2rad wd10),
       Real.sin (deg2rad wd100), Real.cos (deg2rad wd100),
       ws10 ^ 2, ws10 ^ 3, ws100 ^ 2, ws100 ^ 3,
       t * rh, t - dp, ws100 - ws10] := by
  set df := addFeatures d wd10 wd100 ws10 ws100 t rh dp with hdf
  have e : engineer d = some df := by
    unfold engineer
    rw [hWD10, hWD100, hWS10, hWS100, hT, hRH, hDP]
    rfl
  have l1 : lookupD df "Location" = some loc := by
    rw [hdf, lookupD_addFeatures_not_derived d wd10 wd100 ws10 ws100 t rh dp
      "Location" (by decide)]
    exact hLoc
  have l2 : lookupD df "Temp_2m" = some t := by
    rw [hdf, lookupD_addFeatures_not_derived d wd10 wd100 ws10 ws100 t rh dp
      "Temp_2m" (by decide)]
    exact hT
  have l3 : lookupD df "RelHum_2m" = some rh := by
    rw [hdf, lookupD_addFeatures_not_derived d wd10 wd100 ws10 ws100 t rh dp
      "RelHum_2m" (by decide)]
    exact hRH
  have l4 : lookupD df "DP_2m" = some dp := by
    rw [hdf, lookupD_addFeatures_not_derived d wd10 wd100 ws10 ws100 t rh dp
      "DP_2m" (by decide)]
    exact hDP
  have l5 : lookupD df "WS_10m" = some ws10 := by
    rw [hdf, lookupD_addFeatures_not_derived d wd10 wd100 ws10 ws100 t rh dp
      "WS_10m" (by decide)]
    exact hWS10
  have l6 : lookupD df "WS_100m" = some ws100 := by
    rw [hdf, lookupD_addFeatures_not_derived d wd10 wd100 ws10 ws100 t rh dp
      "WS_100m" (by decide)]
    exact hWS100
  have l7 : lookupD df "WD_10m" = some wd10 := by
    rw [hdf, lookupD_addFeatures_not_derived d wd10 wd100 ws10 ws100 t rh dp
      "WD_10m" (by decide)]
    exact hWD10
  have l8 : lookupD df "WD_100m" = some wd100 := by
    rw [hdf, lookupD_addFeatures_not_derived d wd10 wd100 ws10 ws100 t rh dp
      "WD_100m" (by decide)]
    exact hWD100
  have l9 : lookupD df "WG_10m" = some wg := by
    rw [hdf, lookupD_addFeatures_not_derived d wd10 wd100 ws10 ws100 t rh dp
      "WG_10m" (by decide)]
    exact hWG
  have l10 : lookupD df "hour" = some hr := by
    rw [hdf, lookupD_addFeatures_not_derived d wd10 wd100 ws10 ws100 t rh dp
      "hour" (by decide)]
    exact hHr
  have l11 : lookupD df "day" = some dy := by
    rw [hdf, lookupD_addFeatures_not_derived d wd10 wd100 ws10 ws100 t rh dp
      "day" (by decide)]
    exact hDy
  have l12 : lookupD df "month" = some mo := by
    rw [hdf, lookupD_addFeatures_not_derived d wd10 wd100 ws10 ws100 t rh dp
      "month" (by decide)]
    exact hMo
  have l13 : lookupD df "dayofweek" = some dow := by
    rw [hdf, lookupD_addFeatures_not_derived d wd10 wd100 ws10 ws100 t rh dp
      "dayofweek" (by decide)]
    exact hDow
  have l14 : lookupD df "is_weekend" = some wk := by
    rw [hdf, lookupD_addFeatures_not_derived d wd10 wd100 ws10 ws100 t rh dp
      "is_weekend" (by decide)]
    exact hWk
  have l15 := hdf ▸ lookupD_addFeatures_wd10_sin d wd10 wd100 ws10 ws100 t rh dp
  have l16 := hdf ▸ lookupD_addFeatures_wd10_cos d wd10 wd100 ws10 ws100 t rh dp
  have l17 := hdf ▸ lookupD_addFeatures_wd100_sin d wd10 wd100 ws10 ws100 t rh dp
  have l18 := hdf ▸ lookupD_addFeatures_wd100_cos d wd10 wd100 ws10 ws100 t rh dp
  have l19 := hdf ▸ lookupD_addFeatures_ws10_sq d wd10 wd100 ws10 ws100 t rh dp
  have l20 := hdf ▸ lookupD_addFeatures_ws10_cu d wd10 wd100 ws10 ws100 t rh dp
  have l21 := hdf ▸ lookupD_addFeatures_ws100_sq d wd10 wd100 ws10 ws100 t rh dp
  have l22 := hdf ▸ lookupD_addFeatures_ws100_cu d wd10 wd100 ws10 ws100 t rh dp
  have l23 := hdf ▸ lookupD_addFeatures_temp_humidity d wd10 wd100 ws10 ws100 t rh dp
  have l24 := hdf ▸ lookupD_addFeatures_temp_dew_diff d wd10 wd100 ws10 ws100 t rh dp
  have l25 := hdf ▸ lookupD_addFeatures_wind_shear d wd10 wd100 ws10 ws100 t rh dp
  unfold featureRow
  rw [e]
  simp only [feature_list, selectCols, l1, l2, l3, l4, l5, l6, l7, l8, l9,
    l10, l11, l12, l13, l14, l15, l16, l17, l18, l19, l20, l21, l22, l23,
    l24, l25, Option.some_bind]

/-! Clamp, trigonometry and demo-heuristic evaluation. -/

theorem getF_eq {d : Data} {f : String} {v : ℝ} (h : lookupD d f = some v) :
    getF d f = v := by
  unfold getF
  rw [h]
  rfl

theorem clip01_eq_max_min (x : ℝ) : clip01 x = max 0 (min 1 x) := by
  unfold clip01
  rcases le_total x 0 with h | h
  · rw [max_eq_right h, min_eq_left zero_le_one,
      min_eq_right (h.trans zero_le_one), max_eq_left h]
  · rcases le_total x 1 with h1 | h1
    · rw [max_eq_left h, min_eq_left h1, min_eq_right h1, max_eq_right h]
    · rw [max_eq_left h, min_eq_right h1, min_eq_left h1,
        max_eq_right zero_le_one]

theorem clip01_nonneg (x : ℝ) : 0 ≤ clip01 x :=
  le_min (le_max_right x 0) zero_le_one

theorem clip01_le_one (x : ℝ) : clip01 x ≤ 1 :=
  min_le_right _ 1

theorem clip01_of_mem {x : ℝ} (h0 : 0 ≤ x) (h1 : x ≤ 1) : clip01 x = x := by
  unfold clip01
  rw [max_eq_left h0, min_eq_left h1]

theorem clip01_of_ge {x : ℝ} (h1 : 1 ≤ x) : clip01 x = 1 := by
  unfold clip01
  rw [max_eq_left (zero_le_one.trans h1), min_eq_right h1]

theorem clip01_of_le {x : ℝ} (h0 : x ≤ 0) : clip01 x = 0 := by
  unfold clip01
  rw [max_eq_right h0, min_eq_left zero_le_one]

theorem sin_deg90 : Real.sin (deg2rad 90) = 1 := by
  unfold deg2rad
  rw [show (90 : ℝ) * (Real.pi / 180) = Real.pi / 2 by ring,
    Real.sin_pi_div_two]

theorem cos_deg90 : Real.cos (deg2rad 90) = 0 := by
  unfold deg2rad
  rw [show (90 : ℝ) * (Real.pi / 180) = Real.pi / 2 by ring,
    Real.cos_pi_div_two]

theorem demoPrediction_fifteen : demoPrediction 15 = 0.9 := by
  unfold demoPrediction
  rw [show (15 : ℝ) / 15 = 1 by norm_num, Real.one_rpow]
  exact min_eq_left (by norm_num)

/-! Evaluation of the single-prediction route on valid observations. -/

theorem predict_model_scaler (m : Model) (s : Scaler) (d : Data)
    (row : List ℝ) (hrow : featureRow d = some row) :
    App.predict (some m) (some s) d = .success (clip01 (m (s row))) := by
  obtain ⟨hmiss, hne⟩ := featureRow_some_inv hrow
  simp [App.predict, hne, hmiss, hrow]

theorem predict_model_noScaler (m : Model) (d : Data)
    (row : List ℝ) (hrow : featureRow d = some row) :
    App.predict (some m) none d = .success (clip01 (m row)) := by
  obtain ⟨hmiss, hne⟩ := featureRow_some_inv hrow
  simp [App.predict, hne, hmiss, hrow]

theorem predict_demo (scaler : Option Scaler) (d : Data)
    (row : List ℝ) (hrow : featureRow d = some row) :
    App.predict none scaler d =
      .success (clip01 (demoPrediction (getF d "WS_10m"))) := by
  obtain ⟨hmiss, hne⟩ := featureRow_some_inv hrow
  cases scaler with
  | none => simp [App.predict, hne, hmiss, hrow]
  | some s => simp [App.predict, hne, hmiss, hrow]

/-- A batch-loop iteration that succeeds returns exactly the value the
single-prediction route would return for that item. -/
theorem batchItem_some {model : Option Model} {scaler : Option Scaler}
    {d : Data} {p : ℝ} (h : App.batchItem model scaler d = some p) :
    App.predict model scaler d = .success p := by
  unfold App.batchItem at h
  cases hrow : featureRow d with
  | none => rw [hrow] at h; exact Option.noConfusion h
  | some row =>
    rw [hrow] at h
    obtain ⟨hmiss, hne⟩ := featureRow_some_inv hrow
    cases model with
    | some m =>
      cases scaler with
      | some s =>
        injection h with h'
        rw [predict_model_scaler m s d row hrow, h']
      | none =>
        injection h with h'
        rw [predict_model_noScaler m d row hrow, h']
    | none =>
      obtain ⟨ws, hws⟩ := present_of_missing_nil hmiss "WS_10m" (by decide)
      rw [hws] at h
      injection h with h'
      rw [predict_demo scaler d row hrow, getF_eq hws, h']

theorem batchLoop_ok {model : Option Model} {scaler : Option Scaler} :
    ∀ {items : List Data} {ps : List ℝ},
      App.batchLoop model scaler items = some ps →
      ps.length = items.length ∧
        ∀ i (hi : i < items.length) (hp : i < ps.length),
          App.predict model scaler (items.get ⟨i, hi⟩) =
            .success (ps.get ⟨i, hp⟩) := by
  intro items
  induction items with
  | nil =>
    intro ps h
    unfold App.batchLoop at h
    injection h with h'
    subst h'
    exact ⟨rfl, fun i hi _ => absurd hi (Nat.not_lt_zero i)⟩
  | cons a rest ih =>
    intro ps h
    unfold App.batchLoop at h
    cases hba : App.batchItem model scaler a with
    | none => rw [hba] at h; exact Option.noConfusion h
    | some p =>
      rw [hba] at h
      cases hbr : App.batchLoop model scaler rest with
      | none => rw [hbr] at h; exact Option.noConfusion h
      | some qs =>
        rw [hbr] at h
        injection h with h'
        subst h'
        obtain ⟨hlen, hord⟩ := ih hbr
        refine ⟨by simp [hlen], ?_⟩
        intro i hi hp
        cases i with
        | zero => simpa using batchItem_some hba
        | succ j =>
          have hj : j < rest.length := Nat.lt_of_succ_lt_succ hi
          have hpj : j < qs.length := Nat.lt_of_succ_lt_succ hp
          simpa using hord j hj hpj

theorem batchLoop_none {model : Option Model} {scaler : Option Scaler}
    {d : Data} {items : List Data} (hd : d ∈ items)
    (hb : App.batchItem model scaler d = none) :
    App.batchLoop model scaler items = none := by
  induction items with
  | nil => cases hd
  | cons a rest ih =>
    unfold App.batchLoop
    rcases List.mem_cons.mp hd with h' | h'
    · rw [← h', hb]
    · cases hba : App.batchItem model scaler a with
      | none => rfl
      | some p => rw [ih h']

/-! Concrete evaluations of the feature row. -/

theorem featureRow_dFull_eq : featureRow dFull = some
    [1, 20, 50, 10, 2, 5, 90, 0, 3, 12, 15, 6, 2, 0,
     Real.sin (deg2rad 90), Real.cos (deg2rad 90),
     Real.sin (deg2rad 0), Real.cos (deg2rad 0),
     2 ^ 2, 2 ^ 3, 5 ^ 2, 5 ^ 3, 20 * 50, 20 - 10, 5 - 2] :=
  featureRow_eq dFull 1 20 50 10 2 5 90 0 3 12 15 6 2 0
    rfl rfl rfl rfl rfl rfl rfl rfl rfl rfl rfl rfl rfl rfl

theorem featureRow_dDemo_eq : featureRow dDemo = some
    [1, 20, 50, 10, 15, 5, 90, 0, 3, 12, 15, 6, 2, 0,
     Real.sin (deg2rad 90), Real.cos (deg2rad 90),
     Real.sin (deg2rad 0), Real.cos (deg2rad 0),
     15 ^ 2, 15 ^ 3, 5 ^ 2, 5 ^ 3, 20 * 50, 20 - 10, 5 - 15] :=
  featureRow_eq dDemo 1 20 50 10 15 5 90 0 3 12 15 6 2 0
    rfl rfl rfl rfl rfl rfl rfl rfl rfl rfl rfl rfl rfl rfl

/-! The claims. -/

/-- C1: for every observation containing all 14 required raw fields, the
feature vector built by the predict path consists of exactly 25 scalars in
the exact order `Location, Temp_2m, RelHum_2m, DP_2m, WS_10m, WS_100m,
WD_10m, WD_100m, WG_10m, hour, day, month, dayofweek, is_weekend,
WD_10m_sin, WD_10m_cos, WD_100m_sin, WD_100m_cos, WS_10m_sq, WS_10m_cu,
WS_100m_sq, WS_100m_cu, temp_humidity, temp_dew_diff, wind_shear`. -/
theorem C1_feature_order (d : Data) (h : missing_fields d = []) :
    featureRow d = some
      [getF d "Location", getF d "Temp_2m", getF d "RelHum_2m",
       getF d "DP_2m", getF d "WS_10m", getF d "WS_100m", getF d "WD_10m",
       getF d "WD_100m", getF d "WG_10m", getF d "hour", getF d "day",
       getF d "month", getF d "dayofweek", getF d "is_weekend",
       Real.sin (deg2rad (getF d "WD_10m")),
       Real.cos (deg2rad (getF d "WD_10m")),
       Real.sin (deg2rad (getF d "WD_100m")),
       Real.cos (deg2rad (getF d "WD_100m")),
       getF d "WS_10m" ^ 2, getF d "WS_10m" ^ 3,
       getF d "WS_100m" ^ 2, getF d "WS_100m" ^ 3,
       getF d "Temp_2m" * getF d "RelHum_2m",
       getF d "Temp_2m" - getF d "DP_2m",
       getF d "WS_100m" - getF d "WS_10m"] ∧
    feature_list.length = 25 := by
  obtain ⟨loc, hLoc⟩ := present_of_missing_nil h "Location" (by decide)
  obtain ⟨t, hT⟩ := present_of_missing_nil h "Temp_2m" (by decide)
  obtain ⟨rh, hRH⟩ := present_of_missing_nil h "RelHum_2m" (by decide)
  obtain ⟨dp, hDP⟩ := present_of_missing_nil h "DP_2m" (by decide)
  obtain ⟨ws10, hWS10⟩ := present_of_missing_nil h "WS_10m" (by decide)
  obtain ⟨ws100, hWS100⟩ := present_of_missing_nil h "WS_100m" (by decide)
  obtain ⟨wd10, hWD10⟩ := present_of_missing_nil h "WD_10m" (by decide)
  obtain ⟨wd100, hWD100⟩ := present_of_missing_nil h "WD_100m" (by decide)
  obtain ⟨wg, hWG⟩ := present_of_missing_nil h "WG_10m" (by decide)
  obtain ⟨hr, hHr⟩ := present_of_missing_nil h "hour" (by decide)
  obtain ⟨dy, hDy⟩ := present_of_missing_nil h "day" (by decide)
  obtain ⟨mo, hMo⟩ := present_of_missing_nil h "month" (by decide)
  obtain ⟨dow, hDow⟩ := present_of_missing_nil h "dayofweek" (by decide)
  obtain ⟨wk, hWk⟩ := present_of_missing_nil h "is_weekend" (by decide)
  refine ⟨?_, rfl⟩
  rw [getF_eq hLoc, getF_eq hT, getF_eq hRH, getF_eq hDP, getF_eq hWS10,
    getF_eq hWS100, getF_eq hWD10, getF_eq hWD100, getF_eq hWG,
    getF_eq hHr, getF_eq hDy, getF_eq hMo, getF_eq hDow, getF_eq hWk]
  exact featureRow_eq d loc t rh dp ws10 ws100 wd10 wd100 wg hr dy mo dow wk
    hLoc hT hRH hDP hWS10 hWS100 hWD10 hWD100 hWG hHr hDy hMo hDow hWk

/-- Witness for C1 at the complete observation `dFull`. -/
theorem C1_feature_order_witness :
    missing_fields dFull = [] ∧
    featureRow dFull = some
      [1, 20, 50, 10, 2, 5, 90, 0, 3, 12, 15, 6, 2, 0,
       Real.sin (deg2rad 90), Real.cos (deg2rad 90),
       Real.sin (deg2rad 0), Real.cos (deg2rad 0),
       2 ^ 2, 2 ^ 3, 5 ^ 2, 5 ^ 3, 20 * 50, 20 - 10, 5 - 2] := by
  have h : missing_fields dFull = [] := rfl
  refine ⟨h, ?_⟩
  rw [(C1_feature_order dFull h).1]
  rfl

/-- C2: the 11 derived features are computed by the exact pure-arithmetic
formulas: sine and cosine of the wind directions converted from degrees to
radians, squares and cubes of the wind speeds, `temp_humidity =
Temp_2m * RelHum_2m`, `temp_dew_diff = Temp_2m - DP_2m`, and
`wind_shear = WS_100m - WS_10m`. -/
theorem C2_derived_formulas (d : Data) (wd10 wd100 ws10 ws100 t rh dp : ℝ)
    (h1 : lookupD d "WD_10m" = some wd10)
    (h2 : lookupD d "WD_100m" = some wd100)
    (h3 : lookupD d "WS_10m" = some ws10)
    (h4 : lookupD d "WS_100m" = some ws100)
    (h5 : lookupD d "Temp_2m" = some t)
    (h6 : lookupD d "RelHum_2m" = some rh)
    (h7 : lookupD d "DP_2m" = some dp) :
    engineer d = some (addFeatures d wd10 wd100 ws10 ws100 t rh dp) ∧
    lookupD (addFeatures d wd10 wd100 ws10 ws100 t rh dp) "WD_10m_sin" =
      some (Real.sin (deg2rad wd10)) ∧
    lookupD (addFeatures d wd10 wd100 ws10 ws100 t rh dp) "WD_10m_cos" =
      some (Real.cos (deg2rad wd10)) ∧
    lookupD (addFeatures d wd10 wd100 ws10 ws100 t rh dp) "WD_100m_sin" =
      some (Real.sin (deg2rad wd100)) ∧
    lookupD (addFeatures d wd10 wd100 ws10 ws100 t rh dp) "WD_100m_cos" =
      some (Real.cos (deg2rad wd100)) ∧
    lookupD (addFeatures d wd10 wd100 ws10 ws100 t rh dp) "WS_10m_sq" =
      some (ws10 ^ 2) ∧
    lookupD (addFeatures d wd10 wd100 ws10 ws100 t rh dp) "WS_10m_cu" =
      some (ws10 ^ 3) ∧
    lookupD (addFeatures d wd10 wd100 ws10 ws100 t rh dp) "WS_100m_sq" =
      some (ws100 ^ 2) ∧
    lookupD (addFeatures d wd10 wd100 ws10 ws100 t rh dp) "WS_100m_cu" =
      some (ws100 ^ 3) ∧
    lookupD (addFeatures d wd10 wd100 ws10 ws100 t rh dp) "temp_humidity" =
      some (t * rh) ∧
    lookupD (addFeatures d wd10 wd100 ws10 ws100 t rh dp) "temp_dew_diff" =
      some (t - dp) ∧
    lookupD (addFeatures d wd10 wd100 ws10 ws100 t rh dp) "wind_shear" =
      some (ws100 - ws10) := by
  refine ⟨?_, lookupD_addFeatures_wd10_sin d wd10 wd100 ws10 ws100 t rh dp,
    lookupD_addFeatures_wd10_cos d wd10 wd100 ws10 ws100 t rh dp,
    lookupD_addFeatures_wd100_sin d wd10 wd100 ws10 ws100 t rh dp,
    lookupD_addFeatures_wd100_cos d wd10 wd100 ws10 ws100 t rh dp,
    lookupD_addFeatures_ws10_sq d wd10 wd100 ws10 ws100 t rh dp,
    lookupD_addFeatures_ws10_cu d wd10 wd100 ws10 ws100 t rh dp,
    lookupD_addFeatures_ws100_sq d wd10 wd100 ws10 ws100 t rh dp,
    lookupD_addFeatures_ws100_cu d wd10 wd100 ws10 ws100 t rh dp,
    lookupD_addFeatures_temp_humidity d wd10 wd100 ws10 ws100 t rh dp,
    lookupD_addFeatures_temp_dew_diff d wd10 wd100 ws10 ws100 t rh dp,
    lookupD_addFeatures_wind_shear d wd10 wd100 ws10 ws100 t rh dp⟩
  unfold engineer
  rw [h1, h2, h3, h4, h5, h6, h7]
  rfl

/-- Witness for C2 at the spec's concrete example `WD_10m=90, WS_10m=2,
WS_100m=5, Temp_2m=20, RelHum_2m=50, DP_2m=10`: the derived values are
exactly `1, 0, 4, 8, 25, 125, 1000, 10, 3`. -/
theorem C2_derived_formulas_witness :
    lookupD (addFeatures dExample 90 0 2 5 20 50 10) "WD_10m_sin" =
      some 1 ∧
    lookupD (addFeatures dExample 90 0 2 5 20 50 10) "WD_10m_cos" =
      some 0 ∧
    lookupD (addFeatures dExample 90 0 2 5 20 50 10) "WS_10m_sq" =
      some 4 ∧
    lookupD (addFeatures dExample 90 0 2 5 20 50 10) "WS_10m_cu" =
      some 8 ∧
    lookupD (addFeatures dExample 90 0 2 5 20 50 10) "WS_100m_sq" =
      some 25 ∧
    lookupD (addFeatures dExample 90 0 2 5 20 50 10) "WS_100m_cu" =
      some 125 ∧
    lookupD (addFeatures dExample 90 0 2 5 20 50 10) "temp_humidity" =
      some 1000 ∧
    lookupD (addFeatures dExample 90 0 2 5 20 50 10) "temp_dew_diff" =
      some 10 ∧
    lookupD (addFeatures dExample 90 0 2 5 20 50 10) "wind_shear" =
      some 3 ∧
    engineer dExample = some (addFeatures dExample 90 0 2 5 20 50 10) := by
  obtain ⟨he, c1, c2, _, _, c5, c6, c7, c8, c9, c10, c11⟩ :=
    C2_derived_formulas dExample 90 0 2 5 20 50 10 rfl rfl rfl rfl rfl rfl rfl
  refine ⟨?_, ?_, ?_, ?_, ?_, ?_, ?_, ?_, ?_, he⟩
  · rw [c1, sin_deg90]
  · rw [c2, cos_deg90]
  · rw [c5]; norm_num
  · rw [c6]; norm_num
  · rw [c7]; norm_num
  · rw [c8]; norm_num
  · rw [c9]; norm_num
  · rw [c10]; norm_num
  · rw [c11]; norm_num

/-- C3: every successful prediction of `app.py`'s predict route equals
`max(0, min(1, raw))` where `raw` is the raw output value the route
actually produced — the model applied to the (scaled or passed-through)
feature row built from the observation, or the demo heuristic — and hence
lies in `[0, 1]` inclusive. -/
theorem C3_clamp_bound (model : Option Model) (scaler : Option Scaler)
    (d : Data) (p : ℝ) (h : App.predict model scaler d = .success p) :
    (0 ≤ p ∧ p ≤ 1) ∧
    ∃ row, featureRow d = some row ∧
      p = max 0 (min 1 (rawOutput model scaler d row)) := by
  unfold App.predict at h
  split at h
  · exact Resp.noConfusion h
  · split at h
    · cases hrow : featureRow d with
      | none => rw [hrow] at h; exact Resp.noConfusion h
      | some row =>
        rw [hrow] at h
        injection h with h'
        refine ⟨⟨h' ▸ clip01_nonneg _, h' ▸ clip01_le_one _⟩,
          row, rfl, ?_⟩
        rw [← h', clip01_eq_max_min]
        rfl
    · exact Resp.noConfusion h

/-- Witness for C3: mock models returning `1.5` and `-0.3` yield
predictions `1.0` and `0.0`, and the returned `1.0` is exactly the clamp
of the raw `1.5` the mock produced. -/
theorem C3_clamp_bound_witness :
    App.predict (some (fun _ => (1.5 : ℝ))) none dFull = Resp.success 1 ∧
    App.predict (some (fun _ => (-0.3 : ℝ))) none dFull = Resp.success 0 ∧
    (0 ≤ (1 : ℝ) ∧ (1 : ℝ) ≤ 1) ∧
    (1 : ℝ) = max 0 (min 1 (1.5 : ℝ)) := by
  have h1 : App.predict (some (fun _ => (1.5 : ℝ))) none dFull =
      Resp.success 1 := by
    rw [predict_model_noScaler _ dFull _ featureRow_dFull_eq,
      clip01_of_ge (by norm_num)]
  have h2 : App.predict (some (fun _ => (-0.3 : ℝ))) none dFull =
      Resp.success 0 := by
    rw [predict_model_noScaler _ dFull _ featureRow_dFull_eq,
      clip01_of_le (by norm_num)]
  obtain ⟨hb, row, hrow, hraw⟩ := C3_clamp_bound _ _ _ _ h1
  have hr : rawOutput (some (fun _ => (1.5 : ℝ))) none dFull row =
      (1.5 : ℝ) := rfl
  rw [hr] at hraw
  exact ⟨h1, h2, hb, hraw⟩

/-- C4 counterexample: the empty observation is missing all 14 required
fields, yet the route answers with the generic no-data response, which
names no missing field, rather than a validation error listing them. -/
theorem C4_missing_counterexample :
    App.predict none none [] = Resp.noData ∧
    Resp.noData ≠ Resp.clientError (missing_fields []) := by
  refine ⟨rfl, ?_⟩
  intro hcontra
  exact Resp.noConfusion hcontra

/-- C4 amended: for every NONEMPTY observation missing at least one
required field, the route fails with the validation response listing the
missing fields, and that list names every missing required field. -/
theorem C4_missing_fields_amended (model : Option Model)
    (scaler : Option Scaler) (d : Data) (hne : d.isEmpty = false)
    (hmiss : missing_fields d ≠ []) :
    App.predict model scaler d = Resp.clientError (missing_fields d) ∧
    ∀ f ∈ required_fields, lookupD d f = none → f ∈ missing_fields d := by
  constructor
  · simp [App.predict, hne, hmiss]
  · intro f hf hnone
    unfold missing_fields
    rw [List.mem_filter]
    exact ⟨hf, by rw [hnone]; rfl⟩

/-- Witness for C4 amended: an observation missing exactly `RelHum_2m` and
`hour` gets an error naming both fields, in required-field order. -/
theorem C4_missing_fields_witness :
    App.predict none none dMiss = Resp.clientError ["RelHum_2m", "hour"] ∧
    "RelHum_2m" ∈ missing_fields dMiss ∧ "hour" ∈ missing_fields dMiss := by
  have hmiss : missing_fields dMiss = ["RelHum_2m", "hour"] := rfl
  obtain ⟨h1, _⟩ := C4_missing_fields_amended none none dMiss rfl
    (by rw [hmiss]; exact List.cons_ne_nil _ _)
  rw [hmiss] at h1
  exact ⟨h1, by rw [hmiss]; simp, by rw [hmiss]; simp⟩

/-- C5 counterexample: in `app.py`, with the model unloaded the predict
route does NOT fail with a 503; it silently substitutes the demo heuristic
`min(0.9, (WS_10m/15)**1.5)` and answers success — here `0.9`. -/
theorem C5_demo_counterexample :
    App.predict none none dDemo = Resp.success 0.9 ∧
    App.predict none none dDemo ≠ Resp.unavailable := by
  have h : App.predict none none dDemo =
      .success (clip01 (demoPrediction (getF dDemo "WS_10m"))) :=
    predict_demo none dDemo _ featureRow_dDemo_eq
  rw [show getF dDemo "WS_10m" = (15 : ℝ) from getF_eq rfl,
    demoPrediction_fifteen,
    clip01_of_mem (by norm_num) (by norm_num)] at h
  refine ⟨h, ?_⟩
  rw [h]
  intro hc
  exact Resp.noConfusion hc

/-- C5 amended: the 503-on-unavailable contract holds for
`app-with-drive.py`, whose predict route fails with the unavailable
response whenever the model or the scaler handle is missing; `app.py`
instead substitutes its demo heuristic (see the counterexample). -/
theorem C5_unavailable_amended (model : Option Model)
    (scaler : Option Scaler) (d : Data)
    (h : model = none ∨ scaler = none) :
    Drive.predict model scaler d = Resp.unavailable := by
  unfold Drive.predict
  rcases h with h | h
  · subst h
    cases scaler <;> rfl
  · subst h
    cases model <;> rfl

/-- Witness for C5 amended at the concrete state with neither handle. -/
theorem C5_unavailable_witness :
    Drive.predict none none dFull = Resp.unavailable ∧
    (none : Option Model) = none :=
  ⟨C5_unavailable_amended none none dFull (Or.inl rfl), rfl⟩

/-- C6: whenever the batch route succeeds it returns exactly one prediction
per input item, in input order, each equal to what the single-prediction
route would independently return for that item. -/
theorem C6_batch_order (model : Option Model) (scaler : Option Scaler)
    (items : List Data) (ps : List ℝ)
    (h : App.predict_batch model scaler items = Except.ok ps) :
    ps.length = items.length ∧
      ∀ i (hi : i < items.length) (hp : i < ps.length),
        App.predict model scaler (items.get ⟨i, hi⟩) =
          Resp.success (ps.get ⟨i, hp⟩) := by
  unfold App.predict_batch at h
  cases hb : App.batchLoop model scaler items with
  | none => rw [hb] at h; exact Except.noConfusion h
  | some qs =>
    rw [hb] at h
    injection h with h'
    subst h'
    exact batchLoop_ok hb

/-- Witness for C6 on the singleton batch `[dDemo]` in demo mode. -/
theorem C6_batch_order_witness :
    App.predict_batch none none [dDemo] = Except.ok [(0.9 : ℝ)] ∧
    [(0.9 : ℝ)].length = [dDemo].length ∧
    App.predict none none dDemo = Resp.success 0.9 := by
  have hitem : App.batchItem none none dDemo = some (0.9 : ℝ) := by
    unfold App.batchItem
    rw [featureRow_dDemo_eq]
    show some (clip01 (demoPrediction 15)) = some (0.9 : ℝ)
    rw [demoPrediction_fifteen, clip01_of_mem (by norm_num) (by norm_num)]
  have hbatch : App.predict_batch none none [dDemo] =
      Except.ok [(0.9 : ℝ)] := by
    unfold App.predict_batch App.batchLoop
    rw [hitem]
    rfl
  obtain ⟨hlen, hord⟩ := C6_batch_order none none [dDemo] [(0.9 : ℝ)] hbatch
  have h0 := hord 0 (by norm_num) (by norm_num)
  exact ⟨hbatch, hlen, by simpa using h0⟩

/-- C7 counterexample: with the scaler absent but the model present, no
observable surface indicates the bypass — the health response, the
model-info response and the predict response are all identical to a state
where the scaler is present. -/
theorem C7_observability_counterexample :
    App.health_check (some (fun _ => (0.5 : ℝ))) none =
      App.health_check (some (fun _ => (0.5 : ℝ))) (some id) ∧
    model_info (some (fun _ => (0.5 : ℝ))) none =
      model_info (some (fun _ => (0.5 : ℝ))) (some id) ∧
    App.predict (some (fun _ => (0.5 : ℝ))) none dFull =
      App.predict (some (fun _ => (0.5 : ℝ))) (some id) dFull := by
  refine ⟨rfl, rfl, ?_⟩
  rw [predict_model_noScaler _ dFull _ featureRow_dFull_eq,
    predict_model_scaler _ id dFull _ featureRow_dFull_eq]

/-- C7 amended: with the scaler absent and the model present, the unscaled
row is passed through unchanged to the model and the clamped result lies
in `[0, 1]`; but the degraded mode is NOT observable — health and
model-info are unchanged by the scaler's absence. -/
theorem C7_degraded_amended (m : Model) (s : Scaler) (d : Data)
    (row : List ℝ) (hrow : featureRow d = some row) :
    App.predict (some m) none d = Resp.success (clip01 (m row)) ∧
    0 ≤ clip01 (m row) ∧ clip01 (m row) ≤ 1 ∧
    App.health_check (some m) none = App.health_check (some m) (some s) ∧
    model_info (some m) none = model_info (some m) (some s) :=
  ⟨predict_model_noScaler m d row hrow, clip01_nonneg _, clip01_le_one _,
    rfl, rfl⟩

/-- Witness for C7 amended with a mock model returning `2`. -/
theorem C7_degraded_witness :
    App.predict (some (fun _ => (2 : ℝ))) none dFull = Resp.success 1 ∧
    0 ≤ (1 : ℝ) ∧ (1 : ℝ) ≤ 1 := by
  obtain ⟨h1, h2, h3, _, _⟩ :=
    C7_degraded_amended (fun _ => (2 : ℝ)) id dFull _ featureRow_dFull_eq
  rw [clip01_of_ge (by norm_num)] at h1 h2 h3
  exact ⟨h1, h2, h3⟩

/-- C8: one failing item fails the whole batch — if any item of the input
raises during processing, the batch route returns the error response and
no partial list of predictions. -/
theorem C8_batch_atomic (model : Option Model) (scaler : Option Scaler)
    (items : List Data) (d : Data) (hd : d ∈ items)
    (hb : App.batchItem model scaler d = none) :
    App.predict_batch model scaler items = Except.error () := by
  unfold App.predict_batch
  rw [batchLoop_none hd hb]

/-- Witness for C8: a batch whose second item is the empty observation
fails whole, although its first item is valid. -/
theorem C8_batch_atomic_witness :
    App.predict_batch none none [dFull, []] = Except.error () ∧
    App.batchItem none none [] = none := by
  have hb : App.batchItem none none ([] : Data) = none := rfl
  exact ⟨C8_batch_atomic none none [dFull, []] [] (by simp) hb, hb⟩

/-- C9: every state `load_model` can normally produce has the model and
scaler handles either both loaded or both `None`; hence the
model-present-scaler-absent combination never arises from it, and with the
scaler missing the predict route runs exactly as with no model. -/
theorem C9_load_model_pairing (lm : App.LoadOutcome Model)
    (ls : App.LoadOutcome Scaler) (st : Option Model × Option Scaler)
    (h : App.load_model lm ls = some st) :
    (st.1.isSome ↔ st.2.isSome) ∧
    (st.2 = none → st.1 = none) ∧
    (∀ d : Data, st.2 = none →
      App.predict st.1 st.2 d = App.predict none none d) := by
  cases lm with
  | fileNotFound =>
    injection h with h'
    subst h'
    exact ⟨by simp, fun _ => rfl, fun d _ => rfl⟩
  | otherError => exact Option.noConfusion h
  | ok m =>
    cases ls with
    | fileNotFound =>
      injection h with h'
      subst h'
      exact ⟨by simp, fun _ => rfl, fun d _ => rfl⟩
    | otherError => exact Option.noConfusion h
    | ok s =>
      injection h with h'
      subst h'
      refine ⟨by simp, ?_, ?_⟩
      · intro hc
        exact Option.noConfusion hc
      · intro d hc
        exact absurd hc (by simp)

/-- Witness for C9: the model loads but the scaler file is absent; the
caught `FileNotFoundError` resets both handles. -/
theorem C9_load_model_pairing_witness :
    App.load_model (.ok (fun _ => (0.5 : ℝ))) .fileNotFound =
      some (none, none) ∧
    (((none, none) : Option Model × Option Scaler).1.isSome ↔
      ((none, none) : Option Model × Option Scaler).2.isSome) := by
  have h : App.load_model (.ok (fun _ => (0.5 : ℝ)))
      (.fileNotFound : App.LoadOutcome Scaler) = some (none, none) := rfl
  exact ⟨h, (C9_load_model_pairing _ _ _ h).1⟩

/-- C10: the pipeline projects onto exactly the 25 named feature columns,
so two observations agreeing on the 14 required fields — in particular an
observation and the same observation with arbitrary extra fields added —
yield identical feature matrices and identical predictions. -/
theorem C10_extra_fields_ignored (d d' : Data)
    (hagree : ∀ f ∈ required_fields, lookupD d f = lookupD d' f)
    (hmiss : missing_fields d = []) :
    featureRow d = featureRow d' ∧
    ∀ (model : Option Model) (scaler : Option Scaler),
      App.predict model scaler d = App.predict model scaler d' := by
  obtain ⟨loc, hLoc⟩ := present_of_missing_nil hmiss "Location" (by decide)
  obtain ⟨t, hT⟩ := present_of_missing_nil hmiss "Temp_2m" (by decide)
  obtain ⟨rh, hRH⟩ := present_of_missing_nil hmiss "RelHum_2m" (by decide)
  obtain ⟨dp, hDP⟩ := present_of_missing_nil hmiss "DP_2m" (by decide)
  obtain ⟨ws10, hWS10⟩ := present_of_missing_nil hmiss "WS_10m" (by decide)
  obtain ⟨ws100, hWS100⟩ := present_of_missing_nil hmiss "WS_100m" (by decide)
  obtain ⟨wd10, hWD10⟩ := present_of_missing_nil hmiss "WD_10m" (by decide)
  obtain ⟨wd100, hWD100⟩ := present_of_missing_nil hmiss "WD_100m" (by decide)
  obtain ⟨wg, hWG⟩ := present_of_missing_nil hmiss "WG_10m" (by decide)
  obtain ⟨hr, hHr⟩ := present_of_missing_nil hmiss "hour" (by decide)
  obtain ⟨dy, hDy⟩ := present_of_missing_nil hmiss "day" (by decide)
  obtain ⟨mo, hMo⟩ := present_of_missing_nil hmiss "month" (by decide)
  obtain ⟨dow, hDow⟩ := present_of_missing_nil hmiss "dayofweek" (by decide)
  obtain ⟨wk, hWk⟩ := present_of_missing_nil hmiss "is_weekend" (by decide)
  have hLoc' : lookupD d' "Location" = some loc :=
    (hagree "Location" (by decide)).symm.trans hLoc
  have hT' : lookupD d' "Temp_2m" = some t :=
    (hagree "Temp_2m" (by decide)).symm.trans hT
  have hRH' : lookupD d' "RelHum_2m" = some rh :=
    (hagree "RelHum_2m" (by decide)).symm.trans hRH
  have hDP' : lookupD d' "DP_2m" = some dp :=
    (hagree "DP_2m" (by decide)).symm.trans hDP
  have hWS10' : lookupD d' "WS_10m" = some ws10 :=
    (hagree "WS_10m" (by decide)).symm.trans hWS10
  have hWS100' : lookupD d' "WS_100m" = some ws100 :=
    (hagree "WS_100m" (by decide)).symm.trans hWS100
  have hWD10' : lookupD d' "WD_10m" = some wd10 :=
    (hagree "WD_10m" (by decide)).symm.trans hWD10
  have hWD100' : lookupD d' "WD_100m" = some wd100 :=
    (hagree "WD_100m" (by decide)).symm.trans hWD100
  have hWG' : lookupD d' "WG_10m" = some wg :=
    (hagree "WG_10m" (by decide)).symm.trans hWG
  have hHr' : lookupD d' "hour" = some hr :=
    (hagree "hour" (by decide)).symm.trans hHr
  have hDy' : lookupD d' "day" = some dy :=
    (hagree "day" (by decide)).symm.trans hDy
  have hMo' : lookupD d' "month" = some mo :=
    (hagree "month" (by decide)).symm.trans hMo
  have hDow' : lookupD d' "dayofweek" = some dow :=
    (hagree "dayofweek" (by decide)).symm.trans hDow
  have hWk' : lookupD d' "is_weekend" = some wk :=
    (hagree "is_weekend" (by decide)).symm.trans hWk
  have hrow := featureRow_eq d loc t rh dp ws10 ws100 wd10 wd100 wg hr dy
    mo dow wk hLoc hT hRH hDP hWS10 hWS100 hWD10 hWD100 hWG hHr hDy hMo
    hDow hWk
  have hrow' := featureRow_eq d' loc t rh dp ws10 ws100 wd10 wd100 wg hr dy
    mo dow wk hLoc' hT' hRH' hDP' hWS10' hWS100' hWD10' hWD100' hWG' hHr'
    hDy' hMo' hDow' hWk'
  refine ⟨hrow.trans hrow'.symm, ?_⟩
  intro model scaler
  cases model with
  | some m =>
    cases scaler with
    | some s =>
      rw [predict_model_scaler m s d _ hrow,
        predict_model_scaler m s d' _ hrow']
    | none =>
      rw [predict_model_noScaler m d _ hrow,
        predict_model_noScaler m d' _ hrow']
  | none =>
    rw [predict_demo scaler d _ hrow, predict_demo scaler d' _ hrow',
      getF_eq hWS10, getF_eq hWS10']

/-- Witness for C10: appending an unrelated extra field to `dFull` changes
neither the feature row nor the prediction. -/
theorem C10_extra_fields_witness :
    featureRow dFull = featureRow (dFull ++ [("extra_field", 42)]) ∧
    App.predict none none dFull =
      App.predict none none (dFull ++ [("extra_field", 42)]) := by
  have hagree : ∀ f ∈ required_fields,
      lookupD dFull f = lookupD (dFull ++ [("extra_field", 42)]) f := by
    intro f hf
    fin_cases hf <;> rfl
  obtain ⟨h1, h2⟩ := C10_extra_fields_ignored dFull
    (dFull ++ [("extra_field", 42)]) hagree rfl
  exact ⟨h1, h2 none none⟩

end WindML
